import Mathlib

/-!
Verification development for the gbroadcast single-page application.

The TypeScript sources are shallowly embedded: browser localStorage becomes an
association list from keys to stored strings, the external CryptoJS cipher and
the JSON (de)serialisation of each stored value type become explicit function
bundles (`Cipher`, `Codec`), wall-clock time becomes an explicit `now : Nat`
parameter (milliseconds since epoch, as in the source), and the external
jwt-decode library becomes a parameter returning the optional `exp` claim.
React state setters become explicit state-record updates; a mounted component
is modelled by a constant `mounted : Bool` parameter where the source consults
its mounted ref.
-/

namespace GB

/-- Browser localStorage modelled as an association list from keys to the
stored string values; the first binding for a key wins. -/
abbrev Store := List (String × String)

/-- Association lookup (first binding wins), modelling localStorage.getItem. -/
def assoc (k : String) : List (String × β) → Option β
  | [] => none
  | (k2, v) :: rest => if k2 = k then some v else assoc k rest

/-- Write a key, replacing any previous binding (localStorage.setItem). -/
def Store.insert (st : Store) (k v : String) : Store :=
  (k, v) :: st.filter (fun p => p.1 ≠ k)

/-- Delete a key (localStorage.removeItem). -/
def Store.remove (st : Store) (k : String) : Store :=
  st.filter (fun p => p.1 ≠ k)

/-- The raw localStorage.setItem call, which the browser may make throw
(quota exhaustion).  The failure oracle `sf` returns `none` when the write
succeeds and `some isQuota` when it throws, `isQuota` telling whether the
thrown error is a quota DOMException. -/
def rawSet (sf : String → String → Option Bool) (st : Store) (k v : String) :
    Except Bool Store :=
  match sf k v with
  | none => Except.ok (st.insert k v)
  | some isQuota => Except.error isQuota

/-- The raw localStorage.removeItem call; the oracle `rf` tells which keys
make the removal throw. -/
def rawRemove (rf : String → Bool) (st : Store) (k : String) :
    Except Unit Store :=
  if rf k then Except.error () else Except.ok (st.remove k)

/-- The string startsWith test of JavaScript, written over the character
lists so that concrete instances reduce in the kernel. -/
def strStartsWith (s p : String) : Bool :=
  p.data.isPrefixOf s.data

/-- Model of the external CryptoJS AES layer used by secureStorage:
`enc` encrypts a JSON text under the (never-failing) fingerprint key;
`dec` is the decryption attempt, with the fallback-key retry of the source
folded in, returning `none` when no key yields a usable plaintext. -/
structure Cipher where
  enc : String → String
  dec : String → Option String

/-- Model of JSON (de)serialisation for one stored value type:
`encode` is JSON.stringify, `decode` is JSON.parse specialised to the type
(`none` when parsing throws or the text is not of this shape), `unwrap`
parses a `_unencrypted`-wrapped text, and `falsy` is JavaScript truthiness
(`!data`) on the value. -/
structure Codec (α : Type) where
  encode : α → String
  decode : String → Option α
  unwrap : String → Option α
  falsy : α → Bool

/-- The literal prefix of the unencrypted-fallback wrapper tested by
decryptData in secureStorage.ts. -/
def UNENC_TAG : String := "\x7b\"_unencrypted\":true"

/-- encryptData of secureStorage.ts: falsy input becomes the empty string,
otherwise the JSON text is encrypted.  The catch branch that wraps the value
in a `_unencrypted` object is dead in this model since `enc` is total. -/
def encryptData (ci : Cipher) (cd : Codec α) (v : α) : String :=
  if cd.falsy v then "" else ci.enc (cd.encode v)

/-- decryptData of secureStorage.ts: empty input gives null, a
`_unencrypted`-tagged text is unwrapped, otherwise decryption (with the
fallback-key retry folded into `Cipher.dec`) and JSON.parse are attempted,
any failure (including an empty plaintext) giving null. -/
def decryptData (ci : Cipher) (cd : Codec α) (s : String) : Option α :=
  if s = "" then none
  else if strStartsWith s UNENC_TAG then cd.unwrap s
  else
    match ci.dec s with
    | none => none
    | some js => if js = "" then none else cd.decode js

/-- directStorage.setItem: plain JSON write, errors swallowed. -/
def directSetItem (sf : String → String → Option Bool) (cd : Codec α)
    (st : Store) (k : String) (v : α) : Store :=
  match rawSet sf st k (cd.encode v) with
  | Except.ok st2 => st2
  | Except.error _ => st

/-- directStorage.getItem: read and JSON.parse, a missing or empty entry and
a parse failure all giving null (parse failures are caught inside). -/
def directGetItem (cd : Codec α) (st : Store) (k : String) : Option α :=
  match assoc k st with
  | none => none
  | some item => if item = "" then none else cd.decode item

/-- secureStorage.clearContactsData: best-effort removal of the three
contact-related keys, each failure swallowed. -/
def clearContactsData (rf : String → Bool) (st : Store) : Store :=
  let rm := fun (s : Store) (k : String) =>
    match rawRemove rf s k with
    | Except.ok s2 => s2
    | Except.error _ => s
  rm (rm (rm st "google_contacts") "google_contact_groups") "google_contacts_metadata"

/-- The catch branch of secureStorage.setItem: fall back to a direct JSON
write, then, when the original error was a quota DOMException, clear the
contact data to recover space. -/
def secureSetItemRecover (sf : String → String → Option Bool)
    (rf : String → Bool) (cd : Codec α) (st : Store) (k : String) (v : α)
    (isQuota : Bool) : Store :=
  let st2 := directSetItem sf cd st k v
  if isQuota then clearContactsData rf st2 else st2

/-- secureStorage.setItem: encrypt and write, then verify the entry reads
back truthy; a write failure or a failed verification lands in the catch
branch.  The size warning of the source only logs and is elided. -/
def secureSetItem (ci : Cipher) (cd : Codec α)
    (sf : String → String → Option Bool) (rf : String → Bool)
    (st : Store) (k : String) (v : α) : Store :=
  let encrypted := encryptData ci cd v
  match rawSet sf st k encrypted with
  | Except.error q => secureSetItemRecover sf rf cd st k v q
  | Except.ok st1 =>
    match assoc k st1 with
    | none => secureSetItemRecover sf rf cd st1 k v false
    | some t => if t = "" then secureSetItemRecover sf rf cd st1 k v false else st1

/-- secureStorage.getItem: a missing or empty entry gives null; a failed
decryption falls back to the plain-JSON read.  The removal of the entry in
the source happens only when directStorage.getItem itself throws, which it
never does (it catches internally), so the store is unchanged. -/
def secureGetItem (ci : Cipher) (cd : Codec α) (st : Store) (k : String) :
    Option α :=
  match assoc k st with
  | none => none
  | some enc =>
    if enc = "" then none
    else
      match decryptData ci cd enc with
      | some v => some v
      | none => directGetItem cd st k

/-- secureStorage.removeItem: removal with the error swallowed. -/
def secureRemoveItem (rf : String → Bool) (st : Store) (k : String) : Store :=
  match rawRemove rf st k with
  | Except.ok s2 => s2
  | Except.error _ => st

/-- TokenData of tokenUtils: access token, optional refresh token and the
absolute expiry timestamp in milliseconds. -/
structure TokenData where
  token : String
  refreshToken : Option String
  expiresAt : Nat
deriving DecidableEq

/-- getTokenExpiration of tokenUtils.  The external jwt-decode call is the
parameter `jwtDec`: `none` models a decoding error (not a JWT), `some e`
a decoded token whose optional exp claim (seconds since epoch) is `e`.
A missing or zero (falsy) exp claim falls through to the one-hour default. -/
def getTokenExpiration (jwtDec : String → Option (Option Nat)) (now : Nat)
    (token : String) : Nat :=
  match jwtDec token with
  | some (some e) => if e = 0 then now + 3600 * 1000 else e * 1000
  | some none => now + 3600 * 1000
  | none => now + 3600 * 1000

/-- storeTokens of tokenUtils: derive the expiry, build the bundle and write
it under auth_tokens.  The catch branch that retries with a minimal bundle is
dead in this model since secureSetItem is total. -/
def storeTokens (jwtDec : String → Option (Option Nat)) (now : Nat)
    (ci : Cipher) (cdT : Codec TokenData)
    (sf : String → String → Option Bool) (rf : String → Bool)
    (st : Store) (token : String) (refreshToken : Option String) : Store :=
  let expiresAt := getTokenExpiration jwtDec now token
  let tokenData : TokenData := ⟨token, refreshToken, expiresAt⟩
  secureSetItem ci cdT sf rf st "auth_tokens" tokenData

/-- getStoredTokens of tokenUtils: read the bundle, treating a missing bundle
or a falsy (empty) token field as absent. -/
def getStoredTokens (ci : Cipher) (cdT : Codec TokenData) (st : Store) :
    Option TokenData :=
  match secureGetItem ci cdT st "auth_tokens" with
  | none => none
  | some td => if td.token = "" then none else some td

/-- isTokenExpired of tokenUtils: load the current bundle when none is
passed; a missing bundle or a falsy token field counts as expired, otherwise
the token is expired when now plus the five-minute lookahead buffer reaches
the stored expiry.  The catch branch is dead in this model. -/
def isTokenExpired (ci : Cipher) (cdT : Codec TokenData) (st : Store)
    (now : Nat) (arg : Option TokenData) : Bool :=
  let tokenData :=
    match arg with
    | some td => some td
    | none => getStoredTokens ci cdT st
  match tokenData with
  | none => true
  | some td =>
    if td.token = "" then true
    else decide (now + 5 * 60 * 1000 ≥ td.expiresAt)

/-- clearTokens of tokenUtils: remove the bundle; the catch branch with the
direct removal fallback is dead in this model since secureRemoveItem is
total. -/
def clearTokens (rf : String → Bool) (st : Store) : Store :=
  secureRemoveItem rf st "auth_tokens"

/-- Concrete cipher instance for witnesses: a reversible tagged encoding
whose decryption fails on any text not produced by its encryption. -/
def tagCipher : Cipher where
  enc := fun s => String.mk ('E' :: s.data)
  dec := fun s =>
    match s.data with
    | 'E' :: rest => some (String.mk rest)
    | _ => none

/-- Digit-list parser used by the concrete witness codecs. -/
def digitsToNat : List Char → Option Nat
  | [] => none
  | cs => go cs 0
where
  go : List Char → Nat → Option Nat
    | [], acc => some acc
    | c :: rest, acc =>
      if c.isDigit then go rest (acc * 10 + (c.toNat - 48)) else none

/-- Split a character list at the first occurrence of a separator. -/
def splitAtChar (sep : Char) : List Char → Option (List Char × List Char)
  | [] => none
  | c :: rest =>
    if c = sep then some ([], rest)
    else
      match splitAtChar sep rest with
      | some (l, r) => some (c :: l, r)
      | none => none

/-- Concrete TokenData codec for witnesses: a bar-separated rendering with a
decoder that inverts it on tokens free of the separator. -/
def tokenCodecEncode (td : TokenData) : String :=
  String.mk ('T' :: '|' :: td.token.data ++ '|' ::
    (match td.refreshToken with
     | none => ['n']
     | some r => 's' :: r.data) ++ '|' :: (toString td.expiresAt).data)

/-- Decoder for `tokenCodecEncode`. -/
def tokenCodecDecode (s : String) : Option TokenData :=
  match s.data with
  | 'T' :: '|' :: rest =>
    match splitAtChar '|' rest with
    | none => none
    | some (tokChars, rest2) =>
      match splitAtChar '|' rest2 with
      | none => none
      | some (rtChars, expChars) =>
        match digitsToNat expChars with
        | none => none
        | some e =>
          match rtChars with
          | 'n' :: [] => some ⟨String.mk tokChars, none, e⟩
          | 's' :: rchars => some ⟨String.mk tokChars, some (String.mk rchars), e⟩
          | _ => none
  | _ => none

/-- Concrete TokenData codec bundle (a TypeScript object is never falsy, and
no `_unencrypted` wrapper text arises in the traces considered). -/
def tokenCodec : Codec TokenData where
  encode := tokenCodecEncode
  decode := tokenCodecDecode
  unwrap := fun _ => none
  falsy := fun _ => false

/-- User record of types/auth.ts. -/
structure AuthUser where
  id : String
  name : String
  email : String
  picture : String
deriving DecidableEq

/-- AuthTokens of types/auth.ts. -/
structure AuthTokens where
  access_token : String
  refresh_token : Option String
  id_token : Option String
  expires_at : Nat
deriving DecidableEq

/-- AuthState of types/auth.ts. -/
structure AuthState where
  user : Option AuthUser
  tokens : Option AuthTokens
  isAuthenticated : Bool
deriving DecidableEq

/-- Result of one auth orchestrator step: the store, the session state, the
authError state and the navigation target when navigate was called. -/
structure AuthStepResult where
  store : Store
  state : AuthState
  authError : Option String
  nav : Option String
deriving DecidableEq

/-- login of AuthContext.tsx: a falsy access token or a missing user record
(or one with a falsy email) only sets an error and returns; otherwise the
user and the token bundle are persisted, the state becomes authenticated
with the fixed one-hour expiry, the error is cleared and navigation goes to
the dashboard.  The catch branch is dead in this model since the storage
operations are total. -/
def login (ci : Cipher) (cdU : Codec AuthUser) (cdT : Codec TokenData)
    (jwtDec : String → Option (Option Nat)) (now : Nat)
    (sf : String → String → Option Bool) (rf : String → Bool)
    (mounted : Bool) (st : Store) (auth : AuthState) (err : Option String)
    (accessToken : String) (userData : Option AuthUser) : AuthStepResult :=
  if accessToken = "" then
    ⟨st, auth,
      if mounted then some "Authentication failed: Missing access token" else err,
      none⟩
  else
    match userData with
    | none =>
      ⟨st, auth,
        if mounted then some "Authentication failed: Missing user information" else err,
        none⟩
    | some u =>
      if u.email = "" then
        ⟨st, auth,
          if mounted then some "Authentication failed: Missing user information" else err,
          none⟩
      else
        let st1 := secureSetItem ci cdU sf rf st "user" u
        let st2 := storeTokens jwtDec now ci cdT sf rf st1 accessToken none
        let auth2 :=
          if mounted then
            AuthState.mk (some u) (some ⟨accessToken, none, none, now + 3600 * 1000⟩) true
          else auth
        let err2 := if mounted then none else err
        ⟨st2, auth2, err2, some "/"⟩

/-- logout of AuthContext.tsx: clear the persisted user and tokens (each
clearing primitive swallowing its own errors), reset the session state when
mounted, and navigate to the login page.  Nothing in the body can throw in
this model, so the catch branch that navigates without the state reset is
dead. -/
def logout (rf : String → Bool) (mounted : Bool) (st : Store)
    (auth : AuthState) (err : Option String) : AuthStepResult :=
  let st1 := secureRemoveItem rf st "user"
  let st2 := clearTokens rf st1
  let auth2 := if mounted then AuthState.mk none none false else auth
  ⟨st2, auth2, err, some "/login"⟩

/-- ContactGroup of types/contacts.ts (updateTime stands for the nested
metadata.updateTime field). -/
structure ContactGroup where
  resourceName : String
  updateTime : String
  groupType : String
  name : String
  memberCount : Nat
deriving DecidableEq

/-- One names entry of a Contact. -/
structure DisplayNameEntry where
  displayName : String
deriving DecidableEq

/-- One photos entry of a Contact. -/
structure PhotoEntry where
  url : String
deriving DecidableEq

/-- One emailAddresses entry of a Contact (primaryFlag stands for the nested
metadata.primary field). -/
structure EmailEntry where
  value : String
  type : Option String
  primaryFlag : Option Bool
deriving DecidableEq

/-- One phoneNumbers entry of a Contact. -/
structure PhoneEntry where
  value : String
deriving DecidableEq

/-- Metadata of an organizations entry. -/
structure OrgMetadata where
  primary : Option Bool
deriving DecidableEq

/-- One organizations entry of a Contact. -/
structure ContactOrganization where
  name : Option String
  title : Option String
  department : Option String
  metadata : Option OrgMetadata
deriving DecidableEq

/-- The contactGroupMembership sub-field of a membership; its
contactGroupResourceName is optional here because the source checks it
defensively. -/
structure ContactGroupMembershipRef where
  contactGroupResourceName : Option String
deriving DecidableEq

/-- One memberships entry of a Contact. -/
structure MembershipEntry where
  contactGroupMembership : Option ContactGroupMembershipRef
deriving DecidableEq

/-- One userDefined entry of a Contact. -/
structure UserDefinedEntry where
  key : String
  value : String
deriving DecidableEq

/-- Contact of types/contacts.ts; localUpdatedAt and isDirty stand for the
underscore-prefixed local bookkeeping fields. -/
structure Contact where
  resourceName : String
  names : Option (List DisplayNameEntry)
  photos : Option (List PhotoEntry)
  emailAddresses : Option (List EmailEntry)
  phoneNumbers : Option (List PhoneEntry)
  organizations : Option (List ContactOrganization)
  memberships : Option (List MembershipEntry)
  userDefined : Option (List UserDefinedEntry)
  localUpdatedAt : Option Nat
  isDirty : Option Bool
deriving DecidableEq

/-- ContactsMetadata of types/contacts.ts. -/
structure ContactsMetadata where
  lastSyncTime : Nat
  totalCount : Nat
  version : Nat
deriving DecidableEq

/-- A label returned by getContactLabels. -/
structure ContactLabel where
  name : String
  type : Option String
deriving DecidableEq

/-- SYSTEM_GROUP_PREFIXES of useContactsStorage.ts. -/
def SYSTEM_GROUP_PREFIXES : List String :=
  ["contactGroups/myContacts", "contactGroups/starred"]

/-- The group id taken from a group resource name by splitting on the slash,
with the JavaScript rendering of a missing index-1 element. -/
def groupIdOf (grn : String) : String :=
  match grn.splitOn "/" with
  | _ :: x :: _ => x
  | _ => "undefined"

/-- The label pushed by getContactLabels for an accepted group resource
name: the name of the known group when truthy, else a Group-id fallback. -/
def groupLabelFor (groups : List (String × ContactGroup)) (grn : String) :
    ContactLabel :=
  match assoc grn groups with
  | some g =>
    if g.name = "" then ⟨"Group " ++ groupIdOf grn, some "group"⟩
    else ⟨g.name, some "group"⟩
  | none => ⟨"Group " ++ groupIdOf grn, some "group"⟩

/-- The body of the membership loop of getContactLabels: skip an entry
whose contactGroupMembership or group resource name is missing or falsy and
an entry under a system group prefix, otherwise push one group label. -/
def labelStep (groups : List (String × ContactGroup))
    (labels : List ContactLabel) (m : MembershipEntry) : List ContactLabel :=
  match m.contactGroupMembership with
  | none => labels
  | some cgm =>
    match cgm.contactGroupResourceName with
    | none => labels
    | some grn =>
      if grn = "" then labels
      else if SYSTEM_GROUP_PREFIXES.any (fun p => strStartsWith grn p) then labels
      else labels ++ [groupLabelFor groups grn]

/-- getContactLabels of useContactsStorage.ts: walk the memberships in
order, applying the loop body to an initially empty label list. -/
def getContactLabels (groups : List (String × ContactGroup)) (c : Contact) :
    List ContactLabel :=
  match c.memberships with
  | none => []
  | some ms => ms.foldl (labelStep groups) []

/-- Membership acceptance as the claim states it: the sub-fields are present
and truthy and the group resource name is under neither system prefix. -/
def membershipIncluded (m : MembershipEntry) : Bool :=
  match m.contactGroupMembership with
  | none => false
  | some cgm =>
    match cgm.contactGroupResourceName with
    | none => false
    | some grn =>
      if grn = "" then false
      else !(SYSTEM_GROUP_PREFIXES.any (fun p => strStartsWith grn p))

/-- The label an accepted membership contributes. -/
def membershipLabel (groups : List (String × ContactGroup))
    (m : MembershipEntry) : ContactLabel :=
  match m.contactGroupMembership with
  | none => ⟨"", none⟩
  | some cgm =>
    match cgm.contactGroupResourceName with
    | none => ⟨"", none⟩
    | some grn => groupLabelFor groups grn

/-- One page response of the People connections endpoint as consumed by
fetchAllContacts; a missing connections field is `none`. -/
structure PageResponse where
  connections : Option (List Contact)
  nextPageToken : Option String
  totalPeople : Option Nat

/-- maxPages of fetchAllContacts. -/
def maxPages : Nat := 100

/-- The pagination loop of fetchAllContacts in useContactsStorage.ts.
The simulated API maps the pageToken of the request (none for the first
page) to the response, `none` modelling a null response from fetchWithToken
(which the source turns into a thrown error).  The fuel argument is
maxPages minus the number of pages already fetched, so the break fires when
it reaches zero right after a fetch.  Alongside the accumulated contacts the
embedding records the trace of pageToken values actually requested, in
order; a missing or falsy (empty) continuation token ends the loop as in
the JavaScript while condition; the progress updates and the inter-page
delay of the source do not affect the result and are elided. -/
def fetchAllContactsGo (mounted : Bool)
    (api : Option String → Option PageResponse) :
    Nat → Option String → List Contact → List (Option String) →
    Except String (List Contact × List (Option String))
  | 0, _, acc, trace => Except.ok (acc, trace)
  | n + 1, tok, acc, trace =>
    if !mounted then Except.ok (acc, trace)
    else
      match api tok with
      | none => Except.error "Failed to fetch contacts page"
      | some resp =>
        let acc2 := acc ++ resp.connections.getD []
        let trace2 := trace ++ [tok]
        if n = 0 then Except.ok (acc2, trace2)
        else
          match resp.nextPageToken with
          | some t =>
            if t = "" then Except.ok (acc2, trace2)
            else if mounted then fetchAllContactsGo mounted api n (some t) acc2 trace2
            else Except.ok (acc2, trace2)
          | none => Except.ok (acc2, trace2)

/-- fetchAllContacts of useContactsStorage.ts: run the pagination loop from
the first page with no token and the hundred-page safety cap. -/
def fetchAllContacts (mounted : Bool)
    (api : Option String → Option PageResponse) :
    Except String (List Contact × List (Option String)) :=
  fetchAllContactsGo mounted api maxPages none [] []

/-- A contact with no populated fields, used by the simulated APIs. -/
def blankContact : Contact :=
  ⟨"people/c0", none, none, none, none, none, none, none, none, none⟩

/-- A simulated page of the given size. -/
def simPage (n : Nat) (tok : Option String) : PageResponse :=
  ⟨some (List.replicate n blankContact), tok, none⟩

/-- The simulated paginated API of the spec: pages of sizes 2000, 2000 and
500, the third with no continuation token. -/
def simApi3 : Option String → Option PageResponse
  | none => some (simPage 2000 (some "t1"))
  | some s =>
    if s = "t1" then some (simPage 2000 (some "t2"))
    else if s = "t2" then some (simPage 500 none)
    else none

/-- A simulated API whose every response carries a continuation token. -/
def simApiInf : Option String → Option PageResponse :=
  fun _ => some ⟨some [], some "t", none⟩

/-- The component state touched by loadFromStorage in
useContactsStorage.ts. -/
structure ContactsHookState where
  contacts : List Contact
  contactGroups : List (String × ContactGroup)
  lastSyncTime : Option Nat
  error : Option String
  isInitialized : Bool
  isLoading : Bool
deriving DecidableEq

/-- Truthiness of a raw localStorage read: the entry exists and is a
non-empty string. -/
def rawTruthy (st : Store) (k : String) : Bool :=
  match assoc k st with
  | none => false
  | some s => s ≠ ""

/-- loadFromStorage of useContactsStorage.ts: read the three contact keys
through secureStorage, marking the dataset corrupted when a key reads back
null while its raw entry is truthy; on corruption clear all three keys and
surface the corrupted-and-cleared error; finally flag initialisation and,
when contacts were loaded and non-empty, stop loading.  Nothing in the body
throws in this model, so the catch branch is dead. -/
def loadFromStorage (ci : Cipher) (cdC : Codec (List Contact))
    (cdG : Codec (List (String × ContactGroup))) (cdM : Codec ContactsMetadata)
    (rf : String → Bool) (st : Store) (hs : ContactsHookState) :
    Store × ContactsHookState :=
  let storedContacts := secureGetItem ci cdC st "google_contacts"
  let hs1 :=
    match storedContacts with
    | some cs => { hs with contacts := cs }
    | none => hs
  let corrupt1 := storedContacts.isNone && rawTruthy st "google_contacts"
  let storedGroups := secureGetItem ci cdG st "google_contact_groups"
  let hs2 :=
    match storedGroups with
    | some gs => { hs1 with contactGroups := gs }
    | none => hs1
  let corrupt2 := storedGroups.isNone && rawTruthy st "google_contact_groups"
  let storedMeta := secureGetItem ci cdM st "google_contacts_metadata"
  let hs3 :=
    match storedMeta with
    | some m => { hs2 with lastSyncTime := some m.lastSyncTime }
    | none => hs2
  let corrupt3 := storedMeta.isNone && rawTruthy st "google_contacts_metadata"
  let hasCorruptedData := corrupt1 || corrupt2 || corrupt3
  let st2 := if hasCorruptedData then clearContactsData rf st else st
  let corruptMsg : Option String :=
    some "Some contact data was corrupted and has been cleared. Syncing from server..."
  let hs4 :=
    if hasCorruptedData then { hs3 with error := corruptMsg }
    else hs3
  let hs5 := { hs4 with isInitialized := true }
  let hs6 :=
    match storedContacts with
    | some cs => if cs.length > 0 then { hs5 with isLoading := false } else hs5
    | none => hs5
  (st2, hs6)

/-- A JavaScript primitive value, the universe over which the falsy
behaviour of the storage layer is stated. -/
inductive JsPrim where
  | vNull
  | vUndef
  | vBool (b : Bool)
  | vNum (n : Int)
  | vStr (s : String)
deriving DecidableEq

/-- JavaScript truthiness on primitive values. -/
def jsFalsy : JsPrim → Bool
  | JsPrim.vNull => true
  | JsPrim.vUndef => true
  | JsPrim.vBool b => !b
  | JsPrim.vNum n => decide (n = 0)
  | JsPrim.vStr s => decide (s = "")

/-- JSON.stringify on primitive values (undefined renders as the text that
localStorage coerces it to; strings are rendered unescaped, which is exact
for quote-free strings). -/
def jsonEncode : JsPrim → String
  | JsPrim.vNull => "null"
  | JsPrim.vUndef => "undefined"
  | JsPrim.vBool true => "true"
  | JsPrim.vBool false => "false"
  | JsPrim.vNum n => toString n
  | JsPrim.vStr s => "\"" ++ s ++ "\""

/-- Integer parser for the primitive json decoder. -/
def parseIntChars : List Char → Option Int
  | '-' :: rest => (digitsToNat rest).map (fun n => -(n : Int))
  | l => (digitsToNat l).map Int.ofNat

/-- JSON.parse on primitive texts: the keywords, quoted strings and integer
numerals; anything else (in particular the text undefined) throws, which is
`none`. -/
def jsonDecode (s : String) : Option JsPrim :=
  if s = "null" then some JsPrim.vNull
  else if s = "true" then some (JsPrim.vBool true)
  else if s = "false" then some (JsPrim.vBool false)
  else
    match s.data with
    | '"' :: rest =>
      match rest.reverse with
      | '"' :: mid => some (JsPrim.vStr (String.mk mid.reverse))
      | _ => none
    | l => (parseIntChars l).map JsPrim.vNum

/-- Concrete primitive-value codec. -/
def jsPrimCodec : Codec JsPrim where
  encode := jsonEncode
  decode := jsonDecode
  unwrap := fun _ => none
  falsy := jsFalsy

/-- A failure oracle under which every write succeeds. -/
def sfOk : String → String → Option Bool := fun _ _ => none

/-- A failure oracle under which every removal succeeds. -/
def rfOk : String → Bool := fun _ => false

/-- A jwt decode that always fails (an opaque, non-JWT token). -/
def jwtDecNone : String → Option (Option Nat) := fun _ => none

/-- Concrete codec for the contacts list used by the corruption witness: it
decodes only the rendering of the empty list, every other text failing as
unparseable. -/
def contactsCodecW : Codec (List Contact) where
  encode := fun _ => "[]"
  decode := fun s => if s = "[]" then some [] else none
  unwrap := fun _ => none
  falsy := fun _ => false

/-- Concrete codec for the groups map used by the corruption witness. -/
def groupsCodecW : Codec (List (String × ContactGroup)) where
  encode := fun _ => "\x7b\x7d"
  decode := fun _ => none
  unwrap := fun _ => none
  falsy := fun _ => false

/-- Concrete codec for the metadata record used by the corruption
witness. -/
def metaCodecW : Codec ContactsMetadata where
  encode := fun _ => "\x7b\x7d"
  decode := fun _ => none
  unwrap := fun _ => none
  falsy := fun _ => false

/-- The initial state of the contacts hook before loadFromStorage runs. -/
def initialHookState : ContactsHookState :=
  ⟨[], [], none, none, false, true⟩

/-- Concrete codec for the user record used by witnesses; decoding is not
exercised by the statements that use it. -/
def userCodecW : Codec AuthUser where
  encode := fun u => String.mk ('U' :: u.email.data)
  decode := fun _ => none
  unwrap := fun _ => none
  falsy := fun _ => false

/-- The bundle storeTokens builds for a token at a given time. -/
def tokenBundleOf (jwtDec : String → Option (Option Nat)) (now : Nat)
    (token : String) (rt : Option String) : TokenData :=
  ⟨token, rt, getTokenExpiration jwtDec now token⟩

/-- A raw entry under the given key that the decoding pipeline for its value
type cannot recover: present and truthy, not a wrapped-fallback text, and
failing both decryption and the plain-JSON parse. -/
def corruptedRaw (ci : Cipher) (cd : Codec α) (st : Store) (k : String) :
    Prop :=
  ∃ g, assoc k st = some g ∧ g ≠ "" ∧ strStartsWith g UNENC_TAG = false ∧
    ci.dec g = none ∧ cd.decode g = none

/-!
Theorems.  The helper lemmas about the store come first, then one theorem
per claim of the specification, each with its witness or counterexample.
-/

/-- Looking up a key right after writing it yields the written value. -/
theorem assoc_insert_self (st : Store) (k v : String) :
    assoc k (Store.insert st k v) = some v := by
  simp [Store.insert, assoc]

/-- Lookup after a removal: the removed key is gone, others unchanged. -/
theorem assoc_remove_eq (st : Store) (k k2 : String) :
    assoc k (Store.remove st k2) = if k2 = k then none else assoc k st := by
  induction st with
  | nil => simp [Store.remove, assoc]
  | cons p rest ih =>
    by_cases h1 : p.1 = k2
    · by_cases h2 : k2 = k
      · simp [Store.remove, assoc, List.filter, h1, h2] at ih ⊢
        simpa [h2] using ih
      · simp [Store.remove, assoc, List.filter, h1, h2] at ih ⊢
        have : ¬ p.1 = k := by
          intro hc
          exact h2 (by rw [← h1, hc])
        simp [this, ih]
    · by_cases h2 : p.1 = k
      · have hk : ¬ k2 = k := by
          intro hc
          exact h1 (by rw [h2, ← hc])
        have hk2 : ¬ k = k2 := fun hc => hk hc.symm
        simp [Store.remove, assoc, List.filter, h1, h2, hk, hk2]
      · simp [Store.remove, assoc, List.filter, h1, h2] at ih ⊢
        exact ih

/-- C9: for every token string that does not decode as a JWT bearing an exp
claim, getTokenExpiration returns a value within the interval from now to
now plus one hour. -/
theorem claim_C9 (jwtDec : String → Option (Option Nat)) (now : Nat)
    (token : String) (h : jwtDec token = none ∨ jwtDec token = some none) :
    now ≤ getTokenExpiration jwtDec now token ∧
      getTokenExpiration jwtDec now token ≤ now + 3600 * 1000 := by
  rcases h with h | h <;> simp [getTokenExpiration, h]

/-- Witness for C9 at a concrete opaque token. -/
theorem claim_C9_witness :
    (5 : Nat) ≤ getTokenExpiration jwtDecNone 5 "tok" ∧
      getTokenExpiration jwtDecNone 5 "tok" ≤ 5 + 3600 * 1000 :=
  claim_C9 jwtDecNone 5 "tok" (Or.inl rfl)

/-- C3 counterexample: a bundle whose token field is the empty string is
reported expired even though now plus five minutes is far before its stored
expiry, so the claimed equivalence fails for it. -/
theorem claim_C3_counterexample :
    isTokenExpired tagCipher tokenCodec [] 0 (some ⟨"", none, 1000000000⟩) = true ∧
      ¬ (0 + 5 * 60 * 1000 ≥ 1000000000) := by
  constructor
  · rfl
  · decide

/-- C3 as amended: for any bundle whose token field is non-empty, the result
of isTokenExpired is true exactly when now plus the five-minute buffer is at
or past the stored expiry. -/
theorem claim_C3 (ci : Cipher) (cdT : Codec TokenData) (st : Store)
    (now : Nat) (td : TokenData) (h : td.token ≠ "") :
    isTokenExpired ci cdT st now (some td) =
      decide (now + 5 * 60 * 1000 ≥ td.expiresAt) := by
  simp [isTokenExpired, h]

/-- Witness for the amended C3 at a concrete bundle. -/
theorem claim_C3_witness :
    isTokenExpired tagCipher tokenCodec [] 7 (some ⟨"a", none, 5⟩) =
      decide ((7 : Nat) + 5 * 60 * 1000 ≥ 5) :=
  claim_C3 tagCipher tokenCodec [] 7 ⟨"a", none, 5⟩ (by decide)

/-- C4: every call to logout on a mounted component resets the session state
to unauthenticated, whatever the removal-failure oracle makes the underlying
storage removals do. -/
theorem claim_C4 (rf : String → Bool) (mounted : Bool) (st : Store)
    (auth : AuthState) (err : Option String) (hm : mounted = true) :
    (logout rf mounted st auth err).state = AuthState.mk none none false := by
  simp [logout, hm]

/-- Witness for C4 with every storage removal made to throw. -/
theorem claim_C4_witness :
    (logout (fun _ => true) true [("user", "u"), ("auth_tokens", "t")]
        (AuthState.mk none none true) none).state = AuthState.mk none none false :=
  claim_C4 (fun _ => true) true [("user", "u"), ("auth_tokens", "t")]
    (AuthState.mk none none true) none rfl

/-- C5: login with an empty access token on a mounted component leaves the
store and the session state unchanged, sets the missing-access-token error
and does not navigate, for every user record. -/
theorem claim_C5 (ci : Cipher) (cdU : Codec AuthUser) (cdT : Codec TokenData)
    (jwtDec : String → Option (Option Nat)) (now : Nat)
    (sf : String → String → Option Bool) (rf : String → Bool)
    (mounted : Bool) (st : Store) (auth : AuthState) (err : Option String)
    (userData : Option AuthUser) (hm : mounted = true) :
    login ci cdU cdT jwtDec now sf rf mounted st auth err "" userData =
      ⟨st, auth, some "Authentication failed: Missing access token", none⟩ := by
  simp [login, hm]

/-- Witness for C5 at a concrete user record and an authenticated prior
state. -/
theorem claim_C5_witness :
    login tagCipher userCodecW tokenCodec jwtDecNone 0 sfOk rfOk true []
        (AuthState.mk none none false) none ""
        (some ⟨"id1", "n", "e@x", "p"⟩) =
      ⟨[], AuthState.mk none none false,
        some "Authentication failed: Missing access token", none⟩ :=
  claim_C5 tagCipher userCodecW tokenCodec jwtDecNone 0 sfOk rfOk true []
    (AuthState.mk none none false) none (some ⟨"id1", "n", "e@x", "p"⟩) rfl

/-- The membership fold of getContactLabels appends, to any already
accumulated labels, one label for each accepted membership in order. -/
theorem labelStep_foldl (groups : List (String × ContactGroup))
    (ms : List MembershipEntry) (acc : List ContactLabel) :
    ms.foldl (labelStep groups) acc =
      acc ++ (ms.filter membershipIncluded).map (membershipLabel groups) := by
  induction ms generalizing acc with
  | nil => simp
  | cons m rest ih =>
    rw [List.foldl_cons, ih]
    cases hcgm : m.contactGroupMembership with
    | none => simp [labelStep, membershipIncluded, hcgm]
    | some cgm =>
      cases hgrn : cgm.contactGroupResourceName with
      | none => simp [labelStep, membershipIncluded, hcgm, hgrn]
      | some grn =>
        by_cases hempty : grn = ""
        · simp [labelStep, membershipIncluded, hcgm, hgrn, hempty]
        · by_cases hsys : SYSTEM_GROUP_PREFIXES.any (fun p => strStartsWith grn p)
          · simp [labelStep, membershipIncluded, hcgm, hgrn, hempty, hsys]
          · simp [labelStep, membershipIncluded, membershipLabel, hcgm, hgrn,
              hempty, hsys]

/-- C8: getContactLabels maps each membership that carries a truthy
contactGroupMembership sub-field with a truthy group resource name not under
either fixed system prefix to one group label, in order, and excludes every
other membership. -/
theorem claim_C8 (groups : List (String × ContactGroup)) (c : Contact) :
    getContactLabels groups c =
      ((c.memberships.getD []).filter membershipIncluded).map
        (membershipLabel groups) := by
  cases hm : c.memberships with
  | none => simp [getContactLabels, hm]
  | some ms => simp [getContactLabels, hm, labelStep_foldl]

/-- One pagination step: a response with a continuation token and remaining
fuel recurses on the next page with the records and the request trace
extended. -/
theorem go_step (api : Option String → Option PageResponse)
    (tok : Option String) (r : PageResponse) (hr : api tok = some r)
    (t : String) (hnt : r.nextPageToken = some t) (htne : t ≠ "") (n : Nat)
    (hn : n ≠ 0) (acc : List Contact) (trace : List (Option String)) :
    fetchAllContactsGo true api (n + 1) tok acc trace =
      fetchAllContactsGo true api n (some t) (acc ++ r.connections.getD [])
        (trace ++ [tok]) := by
  simp only [fetchAllContactsGo, hr, hnt]
  simp [hn, htne]

/-- Final pagination step: a response without a continuation token ends the
loop with the accumulated records. -/
theorem go_last (api : Option String → Option PageResponse)
    (tok : Option String) (r : PageResponse) (hr : api tok = some r)
    (hnt : r.nextPageToken = none) (n : Nat) (acc : List Contact)
    (trace : List (Option String)) :
    fetchAllContactsGo true api (n + 1) tok acc trace =
      Except.ok (acc ++ r.connections.getD [], trace ++ [tok]) := by
  simp only [fetchAllContactsGo, hr, hnt]
  by_cases hn : n = 0 <;> simp [hn]

/-- C1: against the simulated API with pages of sizes 2000, 2000 and 500,
fetchAllContacts succeeds with exactly 4500 records after exactly the three
page requests whose pageTokens are, in order, the absent token and then the
continuation tokens returned by the first and second responses. -/
theorem claim_C1 :
    (fetchAllContacts true simApi3).map (fun r => (r.1.length, r.2)) =
        Except.ok (4500, [none, some "t1", some "t2"]) ∧
      (simApi3 none).map PageResponse.nextPageToken = some (some "t1") ∧
      (simApi3 (some "t1")).map PageResponse.nextPageToken = some (some "t2") ∧
      (simApi3 (some "t2")).map PageResponse.nextPageToken = some none := by
  refine ⟨?_, rfl, rfl, rfl⟩
  show (fetchAllContactsGo true simApi3 100 none [] []).map
      (fun r => (r.1.length, r.2)) = Except.ok (4500, [none, some "t1", some "t2"])
  rw [show (100 : Nat) = 99 + 1 from rfl,
    go_step simApi3 none (simPage 2000 (some "t1")) rfl "t1" rfl (by decide) 99
      (by decide),
    show (99 : Nat) = 98 + 1 from rfl,
    go_step simApi3 (some "t1") (simPage 2000 (some "t2")) rfl "t2" rfl
      (by decide) 98 (by decide),
    show (98 : Nat) = 97 + 1 from rfl,
    go_last simApi3 (some "t2") (simPage 500 none) rfl rfl 97]
  simp only [simPage, Option.getD_some, Except.map, List.nil_append,
    List.cons_append, List.length_append, List.length_replicate,
    Except.ok.injEq, Prod.mk.injEq]

/-- One fuelled iteration bound: when every response of the API exists and
carries a continuation token, the loop consumes all its fuel and the request
trace grows by exactly the fuel. -/
theorem fetchAllContactsGo_total (api : Option String → Option PageResponse)
    (h : ∀ tok, ∃ r, api tok = some r ∧ ∃ t, r.nextPageToken = some t ∧ t ≠ "") :
    ∀ (n : Nat) (tok : Option String) (acc : List Contact)
      (trace : List (Option String)),
      ∃ recs trace2,
        fetchAllContactsGo true api (n + 1) tok acc trace =
            Except.ok (recs, trace2) ∧
          trace2.length = trace.length + (n + 1) := by
  intro n
  induction n with
  | zero =>
    intro tok acc trace
    obtain ⟨r, hr, _⟩ := h tok
    refine ⟨acc ++ r.connections.getD [], trace ++ [tok], ?_, ?_⟩
    · simp [fetchAllContactsGo, hr]
    · simp
  | succ n ih =>
    intro tok acc trace
    obtain ⟨r, hr, t, hnp, htne⟩ := h tok
    obtain ⟨recs, tr2, hgo, hlen⟩ :=
      ih (some t) (acc ++ r.connections.getD []) (trace ++ [tok])
    refine ⟨recs, tr2, ?_, ?_⟩
    · rw [go_step api tok r hr t hnp htne (n + 1) (Nat.succ_ne_zero n)]
      exact hgo
    · rw [hlen]
      simp
      omega

/-- C2: against any simulated API whose every response exists and supplies a
truthy continuation token, fetchAllContacts halts with a successful result
after exactly 100 page requests. -/
theorem claim_C2 (api : Option String → Option PageResponse)
    (h : ∀ tok, ∃ r, api tok = some r ∧ ∃ t, r.nextPageToken = some t ∧ t ≠ "") :
    ∃ recs trace,
      fetchAllContacts true api = Except.ok (recs, trace) ∧
        trace.length = 100 := by
  obtain ⟨recs, tr, hgo, hlen⟩ := fetchAllContactsGo_total api h 99 none [] []
  exact ⟨recs, tr, hgo, by simpa using hlen⟩

/-- Witness for C2 at the constant always-continuing API. -/
theorem claim_C2_witness :
    ∃ recs trace,
      fetchAllContacts true simApiInf = Except.ok (recs, trace) ∧
        trace.length = 100 :=
  claim_C2 simApiInf
    (fun _ => ⟨⟨some [], some "t", none⟩, rfl, "t", rfl, by decide⟩)

/-- C6 counterexample: storing the empty token succeeds, yet getStoredTokens
then yields no bundle at all (the empty token field is treated as absent),
so the round-trip fails for the empty token string. -/
theorem claim_C6_counterexample :
    getStoredTokens tagCipher tokenCodec
      (storeTokens jwtDecNone 0 tagCipher tokenCodec sfOk rfOk [] "" none) = none := by
  decide

/-- C6 as amended: for every non-empty token string, provided the underlying
storage write succeeds and the external cipher and serialiser behave as
inverse pairs on the bundle, storeTokens followed by getStoredTokens yields
a bundle whose token field is the original token and whose expiresAt field
is the value getTokenExpiration produced at store time. -/
theorem claim_C6 (ci : Cipher) (cdT : Codec TokenData)
    (jwtDec : String → Option (Option Nat)) (now : Nat)
    (sf : String → String → Option Bool) (rf : String → Bool) (st : Store)
    (token : String) (rt : Option String)
    (htok : token ≠ "")
    (hfalsy : cdT.falsy (tokenBundleOf jwtDec now token rt) = false)
    (hsf : sf "auth_tokens" (ci.enc (cdT.encode (tokenBundleOf jwtDec now token rt))) = none)
    (hencne : ci.enc (cdT.encode (tokenBundleOf jwtDec now token rt)) ≠ "")
    (hwrap : strStartsWith (ci.enc (cdT.encode (tokenBundleOf jwtDec now token rt))) UNENC_TAG = false)
    (hdec : ci.dec (ci.enc (cdT.encode (tokenBundleOf jwtDec now token rt))) =
      some (cdT.encode (tokenBundleOf jwtDec now token rt)))
    (hjsonne : cdT.encode (tokenBundleOf jwtDec now token rt) ≠ "")
    (hdecode : cdT.decode (cdT.encode (tokenBundleOf jwtDec now token rt)) =
      some (tokenBundleOf jwtDec now token rt)) :
    getStoredTokens ci cdT (storeTokens jwtDec now ci cdT sf rf st token rt) =
      some ⟨token, rt, getTokenExpiration jwtDec now token⟩ := by
  simp only [tokenBundleOf] at hfalsy hsf hencne hwrap hdec hjsonne hdecode
  simp [getStoredTokens, storeTokens, secureSetItem, secureGetItem, encryptData,
    decryptData, rawSet, hfalsy, hsf, assoc_insert_self, hencne, hwrap, hdec,
    hjsonne, hdecode, htok]

/-- Witness for the amended C6 at a concrete opaque token, with the tagged
cipher and the concrete bundle codec. -/
theorem claim_C6_witness :
    getStoredTokens tagCipher tokenCodec
        (storeTokens jwtDecNone 3 tagCipher tokenCodec sfOk rfOk [] "tok" none) =
      some ⟨"tok", none, getTokenExpiration jwtDecNone 3 "tok"⟩ :=
  claim_C6 tagCipher tokenCodec jwtDecNone 3 sfOk rfOk [] "tok" none
    (by decide) (by decide) rfl (by decide) (by decide) (by decide) (by decide)
    (by decide)

/-- An unrecoverable raw entry makes secureGetItem return null while the raw
read stays truthy, which is exactly the corruption test of
loadFromStorage. -/
theorem corruptedRaw_getItem_none (ci : Cipher) (cd : Codec α) (st : Store)
    (k : String) (h : corruptedRaw ci cd st k) :
    secureGetItem ci cd st k = none ∧ rawTruthy st k = true := by
  obtain ⟨g, hraw, hg, hwrap, hdec, hjson⟩ := h
  constructor
  · simp [secureGetItem, hraw, hg, decryptData, hwrap, hdec, directGetItem, hjson]
  · simp [rawTruthy, hraw, hg]

/-- When the corruption test of loadFromStorage fires for at least one of
the three contact keys, the loader purges all three keys and surfaces the
corrupted-and-cleared message, provided the removals succeed. -/
theorem loadFromStorage_corrupt (ci : Cipher) (cdC : Codec (List Contact))
    (cdG : Codec (List (String × ContactGroup))) (cdM : Codec ContactsMetadata)
    (rf : String → Bool) (st : Store) (hs : ContactsHookState)
    (hc : (((secureGetItem ci cdC st "google_contacts").isNone &&
          rawTruthy st "google_contacts") ||
        ((secureGetItem ci cdG st "google_contact_groups").isNone &&
          rawTruthy st "google_contact_groups") ||
        ((secureGetItem ci cdM st "google_contacts_metadata").isNone &&
          rawTruthy st "google_contacts_metadata")) = true)
    (hrf1 : rf "google_contacts" = false)
    (hrf2 : rf "google_contact_groups" = false)
    (hrf3 : rf "google_contacts_metadata" = false) :
    assoc "google_contacts" (loadFromStorage ci cdC cdG cdM rf st hs).1 = none ∧
      assoc "google_contact_groups" (loadFromStorage ci cdC cdG cdM rf st hs).1 = none ∧
      assoc "google_contacts_metadata" (loadFromStorage ci cdC cdG cdM rf st hs).1 = none ∧
      (loadFromStorage ci cdC cdG cdM rf st hs).2.error =
        some "Some contact data was corrupted and has been cleared. Syncing from server..." := by
  cases hC : secureGetItem ci cdC st "google_contacts" <;>
    cases hG : secureGetItem ci cdG st "google_contact_groups" <;>
      cases hM : secureGetItem ci cdM st "google_contacts_metadata" <;>
        cases hT1 : rawTruthy st "google_contacts" <;>
          cases hT2 : rawTruthy st "google_contact_groups" <;>
            cases hT3 : rawTruthy st "google_contacts_metadata" <;>
              rw [hC, hG, hM, hT1, hT2, hT3] at hc <;>
              simp at hc <;>
              refine ⟨?_, ?_, ?_, ?_⟩ <;>
                simp [loadFromStorage, hC, hG, hM, hT1, hT2, hT3,
                  clearContactsData, rawRemove, hrf1, hrf2, hrf3,
                  assoc_remove_eq, apply_ite, ite_self]

/-- C7: when any of the three contact-related keys holds raw data that fails
to decode (present and truthy, failing both decryption and the plain-JSON
fallback), loadFromStorage purges all three keys — google_contacts,
google_contact_groups and google_contacts_metadata — whatever the other keys
hold, and surfaces the recoverable corrupted-and-cleared message, provided
the removals themselves succeed. -/
theorem claim_C7 (ci : Cipher) (cdC : Codec (List Contact))
    (cdG : Codec (List (String × ContactGroup))) (cdM : Codec ContactsMetadata)
    (rf : String → Bool) (st : Store) (hs : ContactsHookState)
    (h : corruptedRaw ci cdC st "google_contacts" ∨
      corruptedRaw ci cdG st "google_contact_groups" ∨
      corruptedRaw ci cdM st "google_contacts_metadata")
    (hrf1 : rf "google_contacts" = false)
    (hrf2 : rf "google_contact_groups" = false)
    (hrf3 : rf "google_contacts_metadata" = false) :
    assoc "google_contacts" (loadFromStorage ci cdC cdG cdM rf st hs).1 = none ∧
      assoc "google_contact_groups" (loadFromStorage ci cdC cdG cdM rf st hs).1 = none ∧
      assoc "google_contacts_metadata" (loadFromStorage ci cdC cdG cdM rf st hs).1 = none ∧
      (loadFromStorage ci cdC cdG cdM rf st hs).2.error =
        some "Some contact data was corrupted and has been cleared. Syncing from server..." := by
  apply loadFromStorage_corrupt ci cdC cdG cdM rf st hs _ hrf1 hrf2 hrf3
  rcases h with h | h | h <;>
    obtain ⟨hnone, htruthy⟩ := corruptedRaw_getItem_none _ _ _ _ h <;>
    simp [hnone, htruthy]

/-- Witness for C7: a single garbage entry under google_contact_groups makes
the loader purge all three keys and report the corruption. -/
theorem claim_C7_witness :
    assoc "google_contacts"
        (loadFromStorage tagCipher contactsCodecW groupsCodecW metaCodecW rfOk
          [("google_contact_groups", "garbage")] initialHookState).1 = none ∧
      assoc "google_contact_groups"
        (loadFromStorage tagCipher contactsCodecW groupsCodecW metaCodecW rfOk
          [("google_contact_groups", "garbage")] initialHookState).1 = none ∧
      assoc "google_contacts_metadata"
        (loadFromStorage tagCipher contactsCodecW groupsCodecW metaCodecW rfOk
          [("google_contact_groups", "garbage")] initialHookState).1 = none ∧
      (loadFromStorage tagCipher contactsCodecW groupsCodecW metaCodecW rfOk
          [("google_contact_groups", "garbage")] initialHookState).2.error =
        some "Some contact data was corrupted and has been cleared. Syncing from server..." :=
  claim_C7 tagCipher contactsCodecW groupsCodecW metaCodecW rfOk
    [("google_contact_groups", "garbage")] initialHookState
    (Or.inr (Or.inl
      ⟨"garbage", by decide, by decide, by decide, by decide, rfl⟩))
    rfl rfl rfl

/-- C10 counterexample: storing the falsy number zero ends with the plain
JSON text stored (not the empty string) and getItem recovers the original
value rather than null. -/
theorem claim_C10_counterexample :
    assoc "k" (secureSetItem tagCipher jsPrimCodec sfOk rfOk [] "k"
        (JsPrim.vNum 0)) = some "0" ∧
      secureGetItem tagCipher jsPrimCodec
        (secureSetItem tagCipher jsPrimCodec sfOk rfOk [] "k" (JsPrim.vNum 0))
        "k" = some (JsPrim.vNum 0) := by
  decide

/-- C10 as amended: for every key and falsy primitive value, encryptData
does yield the empty string, but the post-write verification of setItem then
fails, so setItem falls back to writing the plain JSON text; getItem
afterwards returns the JSON round-trip of the original value (the original
itself for null, zero, false and the empty string; null only for undefined,
whose stored text does not parse), assuming the writes succeed and plain
JSON is not valid ciphertext. -/
theorem claim_C10 (ci : Cipher) (cd : Codec JsPrim)
    (sf : String → String → Option Bool) (rf : String → Bool) (st : Store)
    (k : String) (v : JsPrim)
    (hfalsy : cd.falsy v = true)
    (hsf1 : sf k "" = none)
    (hsf2 : sf k (cd.encode v) = none)
    (henc : cd.encode v ≠ "")
    (hwrap : strStartsWith (cd.encode v) UNENC_TAG = false)
    (hdec : ci.dec (cd.encode v) = none) :
    assoc k (secureSetItem ci cd sf rf st k v) = some (cd.encode v) ∧
      secureGetItem ci cd (secureSetItem ci cd sf rf st k v) k =
        cd.decode (cd.encode v) := by
  have hset : secureSetItem ci cd sf rf st k v =
      Store.insert (Store.insert st k "") k (cd.encode v) := by
    simp [secureSetItem, encryptData, hfalsy, rawSet, hsf1, hsf2,
      assoc_insert_self, secureSetItemRecover, directSetItem]
  refine ⟨?_, ?_⟩
  · rw [hset, assoc_insert_self]
  · rw [hset]
    simp [secureGetItem, assoc_insert_self, henc, decryptData, hwrap, hdec,
      directGetItem]

/-- Witness for the amended C10 at the null value. -/
theorem claim_C10_witness :
    assoc "k" (secureSetItem tagCipher jsPrimCodec sfOk rfOk [] "k"
        JsPrim.vNull) = some (jsPrimCodec.encode JsPrim.vNull) ∧
      secureGetItem tagCipher jsPrimCodec
        (secureSetItem tagCipher jsPrimCodec sfOk rfOk [] "k" JsPrim.vNull)
        "k" = jsPrimCodec.decode (jsPrimCodec.encode JsPrim.vNull) :=
  claim_C10 tagCipher jsPrimCodec sfOk rfOk [] "k" JsPrim.vNull
    (by decide) rfl rfl (by decide) (by decide) (by decide)

end GB
